import Mathlib

/-
Verification of the report lifecycle engine of the numerolog-ai repository.

The development shallowly embeds the parts of the code that the claims are
about:

* `src/services/database.py` (`DatabaseService`): the single DynamoDB
  reports table is modelled as an association list of rows keyed by
  partition key `USER#{telegram_id}` (a `Nat`) and sort key (a `String`).
  `put_item` replaces the row with the same key, `get_item` looks the key
  up, `delete_item` removes it, and a `begins_with` key-condition query
  filters by prefix on the sort key's character list.  Timestamps
  (`datetime.utcnow().isoformat()`) are modelled as natural numbers in
  seconds; ISO-8601 strings compare lexicographically in the same order as
  the instants they denote, so sorting and age arithmetic are preserved.
* `src/handlers/bot.py` (`process_successful_payment`, report payloads)
  and `src/handlers/api.py` (`handle_generate_report`): each run is a
  function from an initial state to a result together with the list of
  states the run passes through after every database write, so that
  intermediate states are first-class.  The fallible external generator
  call (`ai_service.*`) is a parameter of type `Option String`; `none`
  models the call raising, which in the Python code propagates out of the
  handler unhandled.
-/

namespace Numerolog

/-- Parameter maps (Python `dict`s of report context / pending data),
modelled as association lists from field name to field value. -/
abbrev Ctx := List (String × String)

/-- A DynamoDB item of the reports table: the union of the attributes the
modelled code reads or writes.  Attributes absent from an item are `none`
(`created_at` is totalised to `Nat` with `0` for the absent/empty string,
which is minimal for the lexicographic order exactly as `""` is). -/
structure Item where
  content : Option String := none
  created_at : Nat := 0
  context : Option Ctx := none
  data : Option Ctx := none
  instance_id : Option String := none
  report_type : Option String := none
  deriving DecidableEq

/-- One row of the reports table: partition key `USER#{telegram_id}`
(modelled by the numeric id), sort key, item. -/
structure Row where
  pk : Nat
  sk : String
  item : Item
  deriving DecidableEq

/-- The reports table. -/
abbrev Store := List Row

/-- DynamoDB `get_item`. -/
def getItemDb (s : Store) (pk : Nat) (sk : String) : Option Item :=
  (s.find? (fun r => r.pk == pk && r.sk == sk)).map Row.item

/-- DynamoDB `put_item`: unconditional write replacing the row with the
same full key, if any. -/
def putItemDb (s : Store) (pk : Nat) (sk : String) (it : Item) : Store :=
  ⟨pk, sk, it⟩ :: s.filter (fun r => !(r.pk == pk && r.sk == sk))

/-- DynamoDB `delete_item`. -/
def deleteItemDb (s : Store) (pk : Nat) (sk : String) : Store :=
  s.filter (fun r => !(r.pk == pk && r.sk == sk))

/-- DynamoDB `begins_with` on sort keys: bytewise prefix test. -/
def beginsWith (p s : String) : Bool :=
  p.data.isPrefixOf s.data

/-- DynamoDB `query` with key condition `PK = pk AND begins_with(SK, p)`. -/
def queryPrefix (s : Store) (pk : Nat) (p : String) : List Row :=
  s.filter (fun r => r.pk == pk && beginsWith p r.sk)

/-- Sort key `REPORT#{report_type}` of a single-instance report. -/
def skReport (t : String) : String := "REPORT#" ++ t

/-- Sort key `REPORT#{report_type}#{instance_id}` of a report instance. -/
def skInstance (t i : String) : String := "REPORT#" ++ t ++ "#" ++ i

/-- The `REPORT#{report_type}#` sort-key range of a type's instances. -/
def instRange (t : String) : String := "REPORT#" ++ t ++ "#"

/-- Sort key `PENDING#{report_id}` of staged pending context. -/
def skPending (t : String) : String := "PENDING#" ++ t

/-- Sort key `LOCK#{report_id}` of the generation lock lease. -/
def skLock (t : String) : String := "LOCK#" ++ t

/-- `MULTI_INSTANCE_REPORTS` from `src/services/database.py`. -/
def MULTI_INSTANCE_REPORTS : List String :=
  ["compatibility_pro", "name_selection", "year_forecast", "date_calendar"]

/-- Listing entry returned by `get_report_instances`: instance id, context
snapshot and creation time, with the content deliberately excluded. -/
structure InstEntry where
  instance_id : Option String
  context : Ctx
  created_at : Nat
  deriving DecidableEq

/-- Full record returned by `get_report_instance`. -/
structure InstRecord where
  instance_id : Option String
  content : Option String
  context : Ctx
  created_at : Nat
  deriving DecidableEq

/-- Python's stable `list.sort(key=..., reverse=True)` on instance listings:
stable insertion of an element into a descending-by-`created_at` list. -/
def insertDesc (x : InstEntry) : List InstEntry → List InstEntry
  | [] => [x]
  | y :: ys => if x.created_at ≤ y.created_at then y :: insertDesc x ys else x :: y :: ys

/-- Stable descending-by-`created_at` sort (`instances.sort(key=lambda x:
x.get("created_at", ""), reverse=True)`). -/
def sortDesc : List InstEntry → List InstEntry
  | [] => []
  | x :: xs => insertDesc x (sortDesc xs)

/-- Projection of a queried row to a listing entry (`instance_id`,
`context` with default `{}`, `created_at`), dropping the content. -/
def rowToEntry (r : Row) : InstEntry :=
  { instance_id := r.item.instance_id
    context := r.item.context.getD []
    created_at := r.item.created_at }

/-- `DatabaseService.save_report`: unconditional overwrite of the
single-copy record `REPORT#{report_type}`. -/
def save_report (s : Store) (uid : Nat) (t content : String) (now : Nat) : Store :=
  putItemDb s uid (skReport t) { content := some content, created_at := now }

/-- `DatabaseService.save_report_instance`: writes the instance under
`REPORT#{report_type}#{instance_id}` and returns the generated id.  The
`str(uuid.uuid4())[:8]` token is a parameter `tok` supplied by the
environment; the write is unconditional (`put_item`), with no existence
check and no retry. -/
def save_report_instance (s : Store) (uid : Nat) (t content : String) (ctx : Ctx)
    (tok : String) (now : Nat) : String × Store :=
  (tok,
    putItemDb s uid (skInstance t tok)
      { report_type := some t, instance_id := some tok, content := some content,
        context := some ctx, created_at := now })

/-- `DatabaseService.get_report_instances`: prefix query over
`REPORT#{report_type}#`, projected to listing entries and sorted by
`created_at` descending. -/
def get_report_instances (s : Store) (uid : Nat) (t : String) : List InstEntry :=
  sortDesc ((queryPrefix s uid (instRange t)).map rowToEntry)

/-- `DatabaseService.get_report_instance`: point lookup of one instance
with its full content. -/
def get_report_instance (s : Store) (uid : Nat) (t i : String) : Option InstRecord :=
  (getItemDb s uid (skInstance t i)).map (fun it =>
    { instance_id := it.instance_id, content := it.content,
      context := it.context.getD [], created_at := it.created_at })

/-- `DatabaseService.delete_report_instance`. -/
def delete_report_instance (s : Store) (uid : Nat) (t i : String) : Store :=
  deleteItemDb s uid (skInstance t i)

/-- `DatabaseService.get_report`: for a type in `MULTI_INSTANCE_REPORTS`
it lists the instances and returns the content of the newest one (absent
when there are none); only otherwise does it read the single-copy
`REPORT#{report_type}` record.  Python formats a missing `instance_id` of
the head entry as the string `"None"` in the f-string key. -/
def get_report (s : Store) (uid : Nat) (t : String) : Option String :=
  if t ∈ MULTI_INSTANCE_REPORTS then
    match get_report_instances s uid t with
    | [] => none
    | e :: _ =>
      match get_report_instance s uid t (e.instance_id.getD "None") with
      | some r => r.content
      | none => none
  else
    match getItemDb s uid (skReport t) with
    | some it => it.content
    | none => none

/-- `DatabaseService.save_pending_report_data`: unconditional overwrite of
`PENDING#{report_id}` with the staged context under attribute `data`. -/
def save_pending_report_data (s : Store) (uid : Nat) (rid : String) (d : Ctx)
    (now : Nat) : Store :=
  putItemDb s uid (skPending rid) { data := some d, created_at := now }

/-- `DatabaseService.get_pending_report_data`: point lookup returning the
`data` attribute, absent when the item (or the attribute) is absent. -/
def get_pending_report_data (s : Store) (uid : Nat) (rid : String) : Option Ctx :=
  match getItemDb s uid (skPending rid) with
  | some it => it.data
  | none => none

/-- `DatabaseService.delete_pending_report_data`. -/
def delete_pending_report_data (s : Store) (uid : Nat) (rid : String) : Store :=
  deleteItemDb s uid (skPending rid)

/-- `DatabaseService.is_report_generating`: reads `LOCK#{report_id}`; a
lease strictly older than 120 seconds is stale — it is deleted and the
call reports not-generating; a present lease of age at most 120 seconds
reports generating.  Returns the possibly updated store alongside the
answer because the stale branch performs a delete. -/
def is_report_generating (s : Store) (uid : Nat) (rid : String) (now : Nat) :
    Bool × Store :=
  match getItemDb s uid (skLock rid) with
  | some it =>
    if 120 < now - it.created_at then (false, deleteItemDb s uid (skLock rid))
    else (true, s)
  | none => (false, s)

/-- `DatabaseService.set_report_generating`: unconditional write of the
lock lease with the current time. -/
def set_report_generating (s : Store) (uid : Nat) (rid : String) (now : Nat) : Store :=
  putItemDb s uid (skLock rid) { created_at := now }

/-- `DatabaseService.clear_report_generating`. -/
def clear_report_generating (s : Store) (uid : Nat) (rid : String) : Store :=
  deleteItemDb s uid (skLock rid)

/-- The slice of the `User` model the fulfillment runs touch:
`purchased_reports`, the payment history (type and amount), whether the
user is onboarded, and whether an active PRO subscription is in force
(`subscription_type == "pro" and user.is_premium()`). -/
structure UserRec where
  purchased_reports : List String := []
  payment_history : List (String × Nat) := []
  onboarded : Bool := true
  pro_active : Bool := false
  deriving DecidableEq

/-- `DatabaseService.add_purchased_report`: appends the type if absent. -/
def add_purchased_report (u : UserRec) (t : String) : UserRec :=
  if t ∈ u.purchased_reports then u
  else { u with purchased_reports := u.purchased_reports ++ [t] }

/-- `DatabaseService.add_payment`: appends a payment record. -/
def add_payment (u : UserRec) (ptype : String) (amount : Nat) : UserRec :=
  { u with payment_history := u.payment_history ++ [(ptype, amount)] }

/-- Joint state of the reports table and the user row, with the clock. -/
structure SysState where
  store : Store
  user : UserRec
  now : Nat
  deriving DecidableEq

/-- The per-type flags of a report definition (`price`, `requires_input`,
`multi_instance`). -/
structure ReportInfo where
  price : Nat
  requires_input : Bool := false
  multi_instance : Bool := false
  deriving DecidableEq

/-- `REPORT_INFO` from `src/handlers/bot.py`. -/
def REPORT_INFO (rid : String) : Option ReportInfo :=
  if rid = "full_portrait" then some { price := 120 }
  else if rid = "financial_code" then some { price := 150 }
  else if rid = "date_calendar" then
    some { price := 130, requires_input := true, multi_instance := true }
  else if rid = "year_forecast" then
    some { price := 150, requires_input := true, multi_instance := true }
  else if rid = "name_selection" then
    some { price := 140, requires_input := true, multi_instance := true }
  else if rid = "compatibility_pro" then
    some { price := 150, requires_input := true, multi_instance := true }
  else none

/-- `AVAILABLE_REPORTS` from `src/handlers/api.py`, as a lookup
(`next((r for r in AVAILABLE_REPORTS if r["id"] == report_id), None)`);
`requires_input` is the truthiness of the input-kind tag. -/
def AVAILABLE_REPORTS_find (rid : String) : Option ReportInfo :=
  if rid = "full_portrait" then some { price := 120 }
  else if rid = "financial_code" then some { price := 150 }
  else if rid = "date_calendar" then
    some { price := 130, requires_input := true, multi_instance := true }
  else if rid = "year_forecast" then
    some { price := 150, requires_input := true, multi_instance := true }
  else if rid = "name_selection" then
    some { price := 140, requires_input := true, multi_instance := true }
  else if rid = "compatibility_pro" then
    some { price := 150, requires_input := true, multi_instance := true }
  else none

/-- Truthiness of a read pending-context value in the Python dispatch
guards (`elif report_id == ... and pending_data`): present and nonempty. -/
def pendingTruthyOf : Option Ctx → Bool
  | some d => !d.isEmpty
  | none => false

/-- Outcome of the report branch of `process_successful_payment`. -/
inductive BotResult where
  | alreadyInProgress
  | generationError
  | raised
  | success (instance_id : Option String)
  deriving DecidableEq

/-- Report ids the bot's dispatch generates without pending data. -/
def botNoInputIds : List String := ["full_portrait", "financial_code"]

/-- Report ids whose bot dispatch branch requires truthy pending data. -/
def botInputIds : List String :=
  ["date_calendar", "year_forecast", "name_selection", "compatibility_pro"]

/-- The `payload.startswith("report_")` branch of
`process_successful_payment` in `src/handlers/bot.py`, as a function of
the initial state, the generator outcome `gen` (`none` models the
`ai_service` call raising) and the uuid token `tok` for a multi-instance
save.  Returns the result together with the trace of states after each
database write, in order; the last element is the final state.
Faithful order of effects: `add_payment`; `is_report_generating` (which
may delete a stale lock) with early return; `set_report_generating`;
`add_purchased_report`; `get_pending_report_data`; dispatch (generation,
then for input types deletion of the pending data); save (instance or
single per `REPORT_INFO`'s `multi_instance`); `clear_report_generating`.
The unmatched-dispatch branch clears the lock and returns the generic
generation-error reply; a raising generator propagates, so the run stops
with the lock still present. -/
def process_report_payment (st : SysState) (uid : Nat) (rid : String) (amount : Nat)
    (gen : Option String) (tok : String) : BotResult × List SysState :=
  let st1 : SysState := { st with user := add_payment st.user ("report_" ++ rid) amount }
  let is_multi := ((REPORT_INFO rid).map ReportInfo.multi_instance).getD false
  let checked := is_report_generating st1.store uid rid st1.now
  let st2 : SysState := { st1 with store := checked.2 }
  if checked.1 then (BotResult.alreadyInProgress, [st1, st2])
  else
    let st3 : SysState := { st2 with store := set_report_generating st2.store uid rid st2.now }
    let st4 : SysState := { st3 with user := add_purchased_report st3.user rid }
    let pending := get_pending_report_data st4.store uid rid
    let context := pending.getD []
    let pendingTruthy : Bool := pendingTruthyOf pending
    if rid ∈ botNoInputIds then
      match gen with
      | none => (BotResult.raised, [st1, st2, st3, st4])
      | some content =>
        let saved := if is_multi
          then (some tok, (save_report_instance st4.store uid rid content context tok st4.now).2)
          else (none, save_report st4.store uid rid content st4.now)
        let st5 : SysState := { st4 with store := saved.2 }
        let st6 : SysState := { st5 with store := clear_report_generating st5.store uid rid }
        (BotResult.success saved.1, [st1, st2, st3, st4, st5, st6])
    else if rid ∈ botInputIds ∧ pendingTruthy then
      match gen with
      | none => (BotResult.raised, [st1, st2, st3, st4])
      | some content =>
        let st5 : SysState := { st4 with store := delete_pending_report_data st4.store uid rid }
        let saved := if is_multi
          then (some tok, (save_report_instance st5.store uid rid content context tok st5.now).2)
          else (none, save_report st5.store uid rid content st5.now)
        let st6 : SysState := { st5 with store := saved.2 }
        let st7 : SysState := { st6 with store := clear_report_generating st6.store uid rid }
        (BotResult.success saved.1, [st1, st2, st3, st4, st5, st6, st7])
    else
      let st5 : SysState := { st4 with store := clear_report_generating st4.store uid rid }
      (BotResult.generationError, [st1, st2, st3, st4, st5])

/-- Final state of a traced run (the initial state when no write happened). -/
def finalState (st : SysState) (tr : List SysState) : SysState :=
  tr.getLastD st

/-- Outcome of `handle_generate_report` in `src/handlers/api.py`. -/
inductive ApiResult where
  | notOnboarded
  | unknownReport
  | notPurchased
  | generating
  | raised
  | completed (instance_id : Option String) (content : String)
  deriving DecidableEq

/-- `handle_generate_report` from `src/handlers/api.py` (the Mini App
generation path), traced like `process_report_payment`.  Faithful order:
onboarding check; catalog lookup; access check (`is_pro or has_report`);
`is_report_generating` with early `generating` return;
`set_report_generating`; generation from the request-body context (`none`
models the generator raising and propagating); save (instance with the
request context, or single copy); `add_purchased_report` only if the type
is not already present; `clear_report_generating`. -/
def handle_generate_report (st : SysState) (uid : Nat) (rid : String) (ctx : Ctx)
    (gen : Option String) (tok : String) : ApiResult × List SysState :=
  if !st.user.onboarded then (ApiResult.notOnboarded, [])
  else
    match AVAILABLE_REPORTS_find rid with
    | none => (ApiResult.unknownReport, [])
    | some meta =>
      let is_pro := st.user.pro_active
      if is_pro = false ∧ rid ∉ st.user.purchased_reports then (ApiResult.notPurchased, [])
      else
        let checked := is_report_generating st.store uid rid st.now
        let st1 : SysState := { st with store := checked.2 }
        if checked.1 then (ApiResult.generating, [st1])
        else
          let st2 : SysState := { st1 with store := set_report_generating st1.store uid rid st1.now }
          if rid ∈ botNoInputIds ∨ rid ∈ botInputIds then
            match gen with
            | none => (ApiResult.raised, [st1, st2])
            | some content =>
              let saved := if meta.multi_instance
                then (some tok, (save_report_instance st2.store uid rid content ctx tok st2.now).2)
                else (none, save_report st2.store uid rid content st2.now)
              let st3 : SysState := { st2 with store := saved.2 }
              let st4 : SysState :=
                if rid ∉ st3.user.purchased_reports
                then { st3 with user := add_purchased_report st3.user rid }
                else st3
              let st5 : SysState := { st4 with store := clear_report_generating st4.store uid rid }
              (ApiResult.completed saved.1 content, [st1, st2, st3, st4, st5])
          else
            let st3 : SysState := { st2 with store := clear_report_generating st2.store uid rid }
            (ApiResult.unknownReport, [st1, st2, st3])

/-- Whether a content record for `(uid, rid)` is persisted: a single-copy
record or some instance record carrying content. -/
def reportPersisted (s : Store) (uid : Nat) (rid : String) : Bool :=
  s.any (fun r =>
    r.pk == uid && (r.sk == skReport rid || beginsWith (instRange rid) r.sk)
      && r.item.content.isSome)

/-- Phase of one caller running the lock-acquisition part of a
fulfillment call: the `is_report_generating` read followed, on a negative
answer, by the separate `set_report_generating` write. -/
inductive Phase where
  | start
  | checked (free : Bool)
  | done (acquired : Bool)
  deriving DecidableEq

/-- One atomic step of a caller against the shared store: the check step
(`is_report_generating`, which may delete a stale lease) or the set step
(`set_report_generating`). -/
def phaseStep (s : Store) (ph : Phase) (uid : Nat) (rid : String) (now : Nat) :
    Store × Phase :=
  match ph with
  | Phase.start =>
    let checked := is_report_generating s uid rid now
    (checked.2, Phase.checked (!checked.1))
  | Phase.checked true => (set_report_generating s uid rid now, Phase.done true)
  | Phase.checked false => (s, Phase.done false)
  | Phase.done b => (s, Phase.done b)

/-- Shared store plus the phases of two near-simultaneous callers. -/
structure TwoCallers where
  store : Store
  p1 : Phase
  p2 : Phase
  deriving DecidableEq

/-- One scheduled step: `true` steps the first caller, `false` the second. -/
def schedStep (uid : Nat) (rid : String) (now : Nat) (tc : TwoCallers) (c : Bool) :
    TwoCallers :=
  if c then
    let stepped := phaseStep tc.store tc.p1 uid rid now
    { tc with store := stepped.1, p1 := stepped.2 }
  else
    let stepped := phaseStep tc.store tc.p2 uid rid now
    { tc with store := stepped.1, p2 := stepped.2 }

/-- Run the two callers under a schedule, applied left to right. -/
def schedRun (s : Store) (uid : Nat) (rid : String) (now : Nat)
    (sched : List Bool) : TwoCallers :=
  sched.foldl (schedStep uid rid now) { store := s, p1 := Phase.start, p2 := Phase.start }

/-- Descending sortedness by `created_at` (newest first). -/
def DescSorted (l : List InstEntry) : Prop :=
  l.Pairwise (fun a b => b.created_at ≤ a.created_at)

/-- Well-formedness of the instance records of `(uid, t)`: every row in
the `REPORT#{t}#` range carries an `instance_id` attribute that matches
the suffix of its sort key — exactly what `save_report_instance` writes. -/
def instancesWellFormed (s : Store) (uid : Nat) (t : String) : Prop :=
  ∀ r ∈ s, r.pk = uid → beginsWith (instRange t) r.sk = true →
    r.item.instance_id.isSome = true ∧ r.sk = skInstance t (r.item.instance_id.getD "")

section StoreLemmas

theorem find?_filter_of_imp {α : Type} (q p : α → Bool)
    (h : ∀ a, q a = true → p a = true) :
    ∀ l : List α, (l.filter p).find? q = l.find? q := by
  intro l
  induction l with
  | nil => rfl
  | cons a l ih =>
    by_cases hq : q a = true
    · have hp := h a hq
      simp [hp, List.find?_cons, hq, List.filter_cons]
    · by_cases hp : p a = true <;>
        simp [hp, List.find?_cons, hq, List.filter_cons, ih]

theorem getItemDb_putItemDb_self (s : Store) (pk : Nat) (sk : String) (it : Item) :
    getItemDb (putItemDb s pk sk it) pk sk = some it := by
  simp [getItemDb, putItemDb, List.find?_cons]

theorem rowKey_beq_iff (r : Row) (pk : Nat) (sk : String) :
    (r.pk == pk && r.sk == sk) = true ↔ r.pk = pk ∧ r.sk = sk := by
  simp

theorem rowKey_beq_false (r : Row) (pk : Nat) (sk : String)
    (h : ¬(r.pk = pk ∧ r.sk = sk)) : (r.pk == pk && r.sk == sk) = false := by
  cases hb : (r.pk == pk && r.sk == sk) with
  | false => rfl
  | true => exact absurd ((rowKey_beq_iff r pk sk).mp hb) h

theorem getItemDb_putItemDb_ne (s : Store) {pk pk' : Nat} {sk sk' : String} (it : Item)
    (h : ¬(pk' = pk ∧ sk' = sk)) :
    getItemDb (putItemDb s pk sk it) pk' sk' = getItemDb s pk' sk' := by
  unfold getItemDb putItemDb
  have hhead : ((⟨pk, sk, it⟩ : Row).pk == pk' && (⟨pk, sk, it⟩ : Row).sk == sk') = false := by
    apply rowKey_beq_false
    intro hk
    exact h ⟨hk.1.symm, hk.2.symm⟩
  rw [List.find?_cons, hhead]
  rw [find?_filter_of_imp]
  intro r hr
  rcases (rowKey_beq_iff r pk' sk').mp hr with ⟨h1, h2⟩
  simp only [Bool.not_eq_true']
  apply rowKey_beq_false
  intro hk
  exact h ⟨h1 ▸ hk.1, h2 ▸ hk.2⟩

theorem getItemDb_deleteItemDb_self (s : Store) (pk : Nat) (sk : String) :
    getItemDb (deleteItemDb s pk sk) pk sk = none := by
  unfold getItemDb deleteItemDb
  rw [show (none : Option Item) = Option.map Row.item none from rfl]
  congr 1
  rw [List.find?_eq_none]
  intro r hr
  have hp := (List.mem_filter.mp hr).2
  simp only [Bool.not_eq_true'] at hp
  simpa using hp

theorem getItemDb_deleteItemDb_ne (s : Store) {pk pk' : Nat} {sk sk' : String}
    (h : ¬(pk' = pk ∧ sk' = sk)) :
    getItemDb (deleteItemDb s pk sk) pk' sk' = getItemDb s pk' sk' := by
  unfold getItemDb deleteItemDb
  rw [find?_filter_of_imp]
  intro r hr
  rcases (rowKey_beq_iff r pk' sk').mp hr with ⟨h1, h2⟩
  simp only [Bool.not_eq_true']
  apply rowKey_beq_false
  intro hk
  exact h ⟨h1 ▸ hk.1, h2 ▸ hk.2⟩

theorem putItemDb_putItemDb_self (s : Store) (pk : Nat) (sk : String) (it it' : Item) :
    putItemDb (putItemDb s pk sk it) pk sk it' = putItemDb s pk sk it' := by
  simp [putItemDb, List.filter_cons, List.filter_filter]

end StoreLemmas

section SortLemmas

theorem insertDesc_perm (x : InstEntry) (l : List InstEntry) :
    (insertDesc x l).Perm (x :: l) := by
  induction l with
  | nil => exact List.Perm.refl _
  | cons y ys ih =>
    unfold insertDesc
    by_cases h : x.created_at ≤ y.created_at
    · simp only [h, if_true]
      exact (ih.cons y).trans (List.Perm.swap x y ys)
    · simp only [h, if_false]
      exact List.Perm.refl _

theorem sortDesc_cons (x : InstEntry) (xs : List InstEntry) :
    sortDesc (x :: xs) = insertDesc x (sortDesc xs) := rfl

theorem sortDesc_perm (l : List InstEntry) : (sortDesc l).Perm l := by
  induction l with
  | nil => exact List.Perm.refl _
  | cons x xs ih =>
    unfold sortDesc
    exact (insertDesc_perm x (sortDesc xs)).trans (ih.cons x)

theorem insertDesc_sorted (x : InstEntry) (l : List InstEntry) (h : DescSorted l) :
    DescSorted (insertDesc x l) := by
  induction l with
  | nil => exact List.pairwise_singleton _ x
  | cons y ys ih =>
    unfold insertDesc
    rcases List.pairwise_cons.mp h with ⟨hy, hys⟩
    by_cases hc : x.created_at ≤ y.created_at
    · simp only [hc, if_true]
      refine List.pairwise_cons.mpr ⟨?_, ih hys⟩
      intro z hz
      have hz2 := (insertDesc_perm x ys).mem_iff.mp hz
      rcases List.mem_cons.mp hz2 with h1 | h1
      · exact h1 ▸ hc
      · exact hy z h1
    · simp only [hc, if_false]
      refine List.pairwise_cons.mpr ⟨?_, h⟩
      intro z hz
      rcases List.mem_cons.mp hz with h1 | h1
      · exact h1 ▸ Nat.le_of_lt (Nat.lt_of_not_le hc)
      · exact Nat.le_trans (hy z h1) (Nat.le_of_lt (Nat.lt_of_not_le hc))

theorem sortDesc_sorted (l : List InstEntry) : DescSorted (sortDesc l) := by
  induction l with
  | nil => exact List.Pairwise.nil
  | cons x xs ih => exact insertDesc_sorted x (sortDesc xs) ih

/-- Inserting an element strictly newer than everything in the list puts
it at the head. -/
theorem insertDesc_of_forall_lt (x : InstEntry) (l : List InstEntry)
    (h : ∀ y ∈ l, y.created_at < x.created_at) :
    insertDesc x l = x :: l := by
  cases l with
  | nil => rfl
  | cons y ys =>
    unfold insertDesc
    have : ¬ x.created_at ≤ y.created_at :=
      Nat.not_le_of_lt (h y (List.mem_cons_self y ys))
    simp [this]

theorem map_filter_eq_filter_map {α β : Type} (f : α → β) (q : α → Bool) (p : β → Bool)
    (l : List α) (h : ∀ r ∈ l, q r = p (f r)) :
    (l.filter q).map f = (l.map f).filter p := by
  induction l with
  | nil => rfl
  | cons a l ih =>
    have ha := h a (List.mem_cons_self a l)
    have ih2 := ih (fun r hr => h r (List.mem_cons_of_mem a hr))
    by_cases hq : q a = true
    · rw [List.filter_cons, if_pos hq, List.map_cons, List.map_cons, List.filter_cons,
        if_pos (ha ▸ hq), ih2]
    · rw [List.filter_cons, if_neg hq, List.map_cons, List.filter_cons,
        if_neg (fun hp => hq (ha ▸ hp)), ih2]

end SortLemmas

section KeyLemmas

theorem string_ext {s t : String} (h : s.data = t.data) : s = t := by
  cases s; cases t; exact congrArg String.mk h

theorem beginsWith_iff (p s : String) : beginsWith p s = true ↔ p.data <+: s.data := by
  simp only [beginsWith]
  exact List.isPrefixOf_iff_prefix

theorem chunk_not_prefix (a b : List Char) (hb : '#' ∉ b) :
    ¬ (a ++ ['#']) <+: b := by
  intro hp
  exact hb (hp.subset (List.mem_append_right a (List.mem_singleton_self _)))

theorem chunk_prefix_iff (a b r : List Char) (ha : '#' ∉ a) (hb : '#' ∉ b) :
    ((a ++ ['#']) <+: (b ++ ('#' :: r))) ↔ a = b := by
  induction a generalizing b with
  | nil =>
    cases b with
    | nil =>
      have := List.prefix_append ['#'] r
      simp only [List.nil_append]
      simp [this]
    | cons y ys =>
      have hy : ('#' : Char) ≠ y := fun hh => hb (hh ▸ List.mem_cons_self y ys)
      simp [List.cons_prefix_cons, hy]
  | cons x xs ih =>
    cases b with
    | nil =>
      have hx : x ≠ '#' := fun hh => ha (hh ▸ List.mem_cons_self x xs)
      simp [List.cons_prefix_cons, hx]
    | cons y ys =>
      have ha2 : '#' ∉ xs := fun hh => ha (List.mem_cons_of_mem x hh)
      have hb2 : '#' ∉ ys := fun hh => hb (List.mem_cons_of_mem y hh)
      simp [List.cons_prefix_cons, ih ys ha2 hb2, List.cons_eq_cons]

theorem data_skReport (t : String) :
    (skReport t).data = "REPORT#".data ++ t.data := by
  simp [skReport, String.data_append]

theorem data_skInstance (t i : String) :
    (skInstance t i).data = "REPORT#".data ++ ((t.data ++ ['#']) ++ i.data) := by
  have h1 : ("#" : String).data = ['#'] := rfl
  simp [skInstance, String.data_append, h1, List.append_assoc]

theorem data_instRange (t : String) :
    (instRange t).data = "REPORT#".data ++ (t.data ++ ['#']) := by
  have h1 : ("#" : String).data = ['#'] := rfl
  simp [instRange, String.data_append, h1]

theorem data_skPending (t : String) :
    (skPending t).data = "PENDING#".data ++ t.data := by
  simp [skPending, String.data_append]

theorem data_skLock (t : String) :
    (skLock t).data = "LOCK#".data ++ t.data := by
  simp [skLock, String.data_append]

theorem beginsWith_instRange_skInstance (t i : String) :
    beginsWith (instRange t) (skInstance t i) = true := by
  rw [beginsWith_iff, data_instRange, data_skInstance]
  exact (List.prefix_append_right_inj _).mpr (List.prefix_append _ _)

theorem beginsWith_instRange_skInstance_iff (t u i : String)
    (ht : '#' ∉ t.data) (hu : '#' ∉ u.data) :
    beginsWith (instRange t) (skInstance u i) = true ↔ t = u := by
  rw [beginsWith_iff, data_instRange, data_skInstance]
  rw [List.append_assoc, List.singleton_append]
  rw [List.prefix_append_right_inj]
  rw [chunk_prefix_iff t.data u.data i.data ht hu]
  exact ⟨fun h => string_ext h, fun h => h ▸ rfl⟩

theorem beginsWith_instRange_skReport (t u : String) (hu : '#' ∉ u.data) :
    beginsWith (instRange t) (skReport u) = false := by
  cases hb : beginsWith (instRange t) (skReport u) with
  | false => rfl
  | true =>
    exfalso
    rw [beginsWith_iff, data_instRange, data_skReport,
      List.prefix_append_right_inj] at hb
    exact chunk_not_prefix t.data u.data hu hb

theorem head_ne_not_prefix {x y : Char} {xs ys : List Char} (h : x ≠ y) :
    ¬ (x :: xs) <+: (y :: ys) := by
  intro hp
  exact h (List.cons_prefix_cons.mp hp).1

theorem beginsWith_instRange_skPending (t u : String) :
    beginsWith (instRange t) (skPending u) = false := by
  cases hb : beginsWith (instRange t) (skPending u) with
  | false => rfl
  | true =>
    exfalso
    rw [beginsWith_iff, data_instRange, data_skPending] at hb
    have hR : ("REPORT#" : String).data = 'R' :: "EPORT#".data := rfl
    have hP : ("PENDING#" : String).data = 'P' :: "ENDING#".data := rfl
    rw [hR, hP, List.cons_append, List.cons_append] at hb
    exact head_ne_not_prefix (by decide) hb

theorem beginsWith_instRange_skLock (t u : String) :
    beginsWith (instRange t) (skLock u) = false := by
  cases hb : beginsWith (instRange t) (skLock u) with
  | false => rfl
  | true =>
    exfalso
    rw [beginsWith_iff, data_instRange, data_skLock] at hb
    have hR : ("REPORT#" : String).data = 'R' :: "EPORT#".data := rfl
    have hL : ("LOCK#" : String).data = 'L' :: "OCK#".data := rfl
    rw [hR, hL, List.cons_append, List.cons_append] at hb
    exact head_ne_not_prefix (by decide) hb

theorem skInstance_inj (t i j : String) (h : skInstance t i = skInstance t j) :
    i = j := by
  have hd := congrArg String.data h
  rw [data_skInstance, data_skInstance] at hd
  exact string_ext (List.append_cancel_left (List.append_cancel_left hd))

theorem skInstance_ne_skLock (t i u : String) : skInstance t i ≠ skLock u := by
  intro h
  have hd := congrArg String.data h
  rw [data_skInstance, data_skLock] at hd
  have hR : ("REPORT#" : String).data = 'R' :: "EPORT#".data := rfl
  have hL : ("LOCK#" : String).data = 'L' :: "OCK#".data := rfl
  rw [hR, hL, List.cons_append, List.cons_append] at hd
  exact absurd (List.cons_eq_cons.mp hd).1 (by decide)

theorem skReport_ne_skLock (t u : String) : skReport t ≠ skLock u := by
  intro h
  have hd := congrArg String.data h
  rw [data_skReport, data_skLock] at hd
  have hR : ("REPORT#" : String).data = 'R' :: "EPORT#".data := rfl
  have hL : ("LOCK#" : String).data = 'L' :: "OCK#".data := rfl
  rw [hR, hL, List.cons_append, List.cons_append] at hd
  exact absurd (List.cons_eq_cons.mp hd).1 (by decide)

theorem skPending_ne_skLock (t u : String) : skPending t ≠ skLock u := by
  intro h
  have hd := congrArg String.data h
  rw [data_skPending, data_skLock] at hd
  have hP : ("PENDING#" : String).data = 'P' :: "ENDING#".data := rfl
  have hL : ("LOCK#" : String).data = 'L' :: "OCK#".data := rfl
  rw [hP, hL, List.cons_append, List.cons_append] at hd
  exact absurd (List.cons_eq_cons.mp hd).1 (by decide)

theorem skReport_ne_skInstance_self (t i : String) : skReport t ≠ skInstance t i := by
  intro h
  have hd := congrArg String.data h
  rw [data_skReport, data_skInstance] at hd
  have h2 := List.append_cancel_left hd
  have hlen := congrArg List.length h2
  simp [List.length_append] at hlen

theorem multi_no_hash {t : String} (h : t ∈ MULTI_INSTANCE_REPORTS) :
    '#' ∉ t.data := by
  simp only [MULTI_INSTANCE_REPORTS, List.mem_cons, List.not_mem_nil, or_false] at h
  rcases h with h | h | h | h <;> (subst h; decide)

end KeyLemmas

section QueryLemmas

theorem any_congr_mem {α : Type} (l : List α) (p q : α → Bool)
    (h : ∀ a ∈ l, p a = q a) : l.any p = l.any q := by
  induction l with
  | nil => rfl
  | cons a l ih =>
    simp only [List.any_cons, h a (List.mem_cons_self a l),
      ih (fun b hb => h b (List.mem_cons_of_mem a hb))]

theorem mem_queryPrefix {s : Store} {pk : Nat} {p : String} {r : Row} :
    r ∈ queryPrefix s pk p ↔ r ∈ s ∧ r.pk = pk ∧ beginsWith p r.sk = true := by
  simp only [queryPrefix, List.mem_filter, Bool.and_eq_true, beq_iff_eq]

theorem queryPrefix_deleteItemDb (s : Store) (pk pkd : Nat) (p skd : String) :
    queryPrefix (deleteItemDb s pkd skd) pk p =
      (queryPrefix s pk p).filter (fun r => !(r.pk == pkd && r.sk == skd)) := by
  simp only [queryPrefix, deleteItemDb, List.filter_filter]
  apply List.filter_congr
  intro r _
  exact Bool.and_comm _ _

theorem queryPrefix_putItemDb_pos (s : Store) (pk : Nat) (sk p : String) (it : Item)
    (h : beginsWith p sk = true) :
    queryPrefix (putItemDb s pk sk it) pk p =
      ⟨pk, sk, it⟩ :: (queryPrefix s pk p).filter (fun r => !(r.pk == pk && r.sk == sk)) := by
  unfold queryPrefix putItemDb
  rw [List.filter_cons, if_pos (by simp [h])]
  simp only [List.filter_filter]
  congr 1
  exact List.filter_congr (fun r _ => Bool.and_comm _ _)

theorem queryPrefix_putItemDb_notin (s : Store) (pk pkp : Nat) (sk p : String) (it : Item)
    (h : ¬(pkp = pk ∧ beginsWith p sk = true)) :
    queryPrefix (putItemDb s pkp sk it) pk p =
      (queryPrefix s pk p).filter (fun r => !(r.pk == pkp && r.sk == sk)) := by
  unfold queryPrefix putItemDb
  have hhead : ¬(((⟨pkp, sk, it⟩ : Row).pk == pk
      && beginsWith p (⟨pkp, sk, it⟩ : Row).sk) = true) := by
    simp only [Bool.and_eq_true, beq_iff_eq]
    intro hk
    exact h hk
  rw [List.filter_cons, if_neg hhead]
  simp only [List.filter_filter]
  exact List.filter_congr (fun r _ => Bool.and_comm _ _)

theorem filter_key_eq_self (l : List Row) (pkd : Nat) (skd : String)
    (h : ∀ r ∈ l, ¬(r.pk = pkd ∧ r.sk = skd)) :
    l.filter (fun r => !(r.pk == pkd && r.sk == skd)) = l := by
  apply List.filter_eq_self.mpr
  intro r hr
  simp only [Bool.not_eq_true']
  exact rowKey_beq_false r pkd skd (h r hr)

theorem reportPersisted_putItemDb_content (s : Store) (uid : Nat) (rid sk : String)
    (it : Item) (hsk : sk = skReport rid ∨ beginsWith (instRange rid) sk = true)
    (hc : it.content.isSome = true) :
    reportPersisted (putItemDb s uid sk it) uid rid = true := by
  apply List.any_eq_true.mpr
  refine ⟨⟨uid, sk, it⟩, List.mem_cons_self _ _, ?_⟩
  rcases hsk with h | h
  · simp [h, hc]
  · simp [h, hc]

theorem reportPersisted_deleteItemDb_lock (s : Store) (uid uid2 : Nat) (rid rid2 : String) :
    reportPersisted (deleteItemDb s uid2 (skLock rid2)) uid rid =
      reportPersisted s uid rid := by
  unfold reportPersisted deleteItemDb
  rw [List.any_filter]
  apply any_congr_mem
  intro r _
  cases hq : (r.pk == uid && (r.sk == skReport rid || beginsWith (instRange rid) r.sk)
      && r.item.content.isSome) with
  | false => simp [hq]
  | true =>
    rcases Bool.and_eq_true_iff.mp (Bool.and_eq_true_iff.mp hq).1 with ⟨_, h2⟩
    have hne : r.sk ≠ skLock rid2 := by
      rcases Bool.or_eq_true_iff.mp h2 with h3 | h3
      · exact (eq_of_beq h3) ▸ skReport_ne_skLock rid rid2
      · intro hcon
        rw [hcon] at h3
        rw [beginsWith_instRange_skLock rid rid2] at h3
        cases h3
    have hp : (!(r.pk == uid2 && r.sk == skLock rid2)) = true := by
      simp only [Bool.not_eq_true']
      exact rowKey_beq_false r uid2 (skLock rid2) (fun hk => hne hk.2)
    simp [hq, hp]

theorem getItemDb_check_ne (s : Store) (uid : Nat) (rid : String) (now : Nat)
    {pk : Nat} {sk : String} (h : ¬(pk = uid ∧ sk = skLock rid)) :
    getItemDb (is_report_generating s uid rid now).2 pk sk = getItemDb s pk sk := by
  unfold is_report_generating
  cases hfind : getItemDb s uid (skLock rid) with
  | none => rfl
  | some it =>
    by_cases hst : 120 < now - it.created_at
    · simp only [hst, if_true]
      exact getItemDb_deleteItemDb_ne s h
    · simp only [hst, if_false]

theorem check_snd_cases (s : Store) (uid : Nat) (rid : String) (now : Nat) :
    (is_report_generating s uid rid now).2 = s ∨
      (is_report_generating s uid rid now).2 = deleteItemDb s uid (skLock rid) := by
  unfold is_report_generating
  cases hfind : getItemDb s uid (skLock rid) with
  | none => exact Or.inl rfl
  | some it =>
    by_cases hst : 120 < now - it.created_at
    · right
      simp only [hst, if_true]
    · left
      simp only [hst, if_false]

end QueryLemmas

section BotRunLemmas

theorem botInput_not_noInput {rid : String} (h : rid ∈ botInputIds) :
    rid ∉ botNoInputIds := by
  simp only [botInputIds, List.mem_cons, List.not_mem_nil, or_false] at h
  rcases h with h | h | h | h <;> (subst h; decide)

theorem pending_after_lock (s : Store) (uid : Nat) (rid : String) (now : Nat) :
    get_pending_report_data
        (set_report_generating (is_report_generating s uid rid now).2 uid rid now)
        uid rid = get_pending_report_data s uid rid := by
  unfold get_pending_report_data set_report_generating
  rw [getItemDb_putItemDb_ne _ _ (fun hk => skPending_ne_skLock rid rid hk.2)]
  rw [getItemDb_check_ne s uid rid now (fun hk => skPending_ne_skLock rid rid hk.2)]

theorem bot_run_raised (st : SysState) (uid : Nat) (rid : String) (amount : Nat)
    (tok : String)
    (hfree : (is_report_generating st.store uid rid st.now).1 = false)
    (hdisp : rid ∈ botNoInputIds ∨ (rid ∈ botInputIds ∧
      pendingTruthyOf (get_pending_report_data st.store uid rid) = true)) :
    process_report_payment st uid rid amount none tok =
      (BotResult.raised,
        [⟨st.store, add_payment st.user ("report_" ++ rid) amount, st.now⟩,
         ⟨(is_report_generating st.store uid rid st.now).2,
            add_payment st.user ("report_" ++ rid) amount, st.now⟩,
         ⟨set_report_generating (is_report_generating st.store uid rid st.now).2 uid rid st.now,
            add_payment st.user ("report_" ++ rid) amount, st.now⟩,
         ⟨set_report_generating (is_report_generating st.store uid rid st.now).2 uid rid st.now,
            add_purchased_report (add_payment st.user ("report_" ++ rid) amount) rid,
            st.now⟩]) := by
  rcases hdisp with h | ⟨hin, htr⟩
  · simp only [process_report_payment]
    simp only [hfree, Bool.false_eq_true, if_false, h, if_true]
  · have hnin := botInput_not_noInput hin
    simp only [process_report_payment]
    simp only [hfree, Bool.false_eq_true, if_false, hnin]
    rw [pending_after_lock st.store uid rid st.now]
    simp only [hin, htr, true_and, and_true, if_true]

theorem bot_run_misscontext (st : SysState) (uid : Nat) (rid : String) (amount : Nat)
    (gen : Option String) (tok : String)
    (hfree : (is_report_generating st.store uid rid st.now).1 = false)
    (hin : rid ∈ botInputIds)
    (hpf : pendingTruthyOf (get_pending_report_data st.store uid rid) = false) :
    process_report_payment st uid rid amount gen tok =
      (BotResult.generationError,
        [⟨st.store, add_payment st.user ("report_" ++ rid) amount, st.now⟩,
         ⟨(is_report_generating st.store uid rid st.now).2,
            add_payment st.user ("report_" ++ rid) amount, st.now⟩,
         ⟨set_report_generating (is_report_generating st.store uid rid st.now).2 uid rid st.now,
            add_payment st.user ("report_" ++ rid) amount, st.now⟩,
         ⟨set_report_generating (is_report_generating st.store uid rid st.now).2 uid rid st.now,
            add_purchased_report (add_payment st.user ("report_" ++ rid) amount) rid,
            st.now⟩,
         ⟨clear_report_generating
              (set_report_generating (is_report_generating st.store uid rid st.now).2
                uid rid st.now) uid rid,
            add_purchased_report (add_payment st.user ("report_" ++ rid) amount) rid,
            st.now⟩]) := by
  have hnin := botInput_not_noInput hin
  simp only [process_report_payment]
  simp only [hfree, Bool.false_eq_true, if_false, hnin]
  rw [pending_after_lock st.store uid rid st.now]
  simp only [hpf, Bool.false_eq_true, and_false, if_false]

end BotRunLemmas

section Claim1

/-- Claim C1 counterexample: a successful purchase-confirmation
fulfillment run for a fresh `(user, full_portrait)` passes through a
reachable intermediate state (after `add_purchased_report`, before the
save) in which the entitlement is already present while no content
record for the type is persisted — the entitlement is granted before
persistence, not after. -/
theorem claim1_counterexample :
    (process_report_payment ⟨[], {}, 0⟩ 1 "full_portrait" 120 (some "X") "tk").1 =
      BotResult.success none ∧
    ∃ s ∈ (process_report_payment ⟨[], {}, 0⟩ 1 "full_portrait" 120 (some "X") "tk").2,
      "full_portrait" ∈ s.user.purchased_reports ∧
      reportPersisted s.store 1 "full_portrait" = false := by
  decide

/-- Claim C1 (amended): the entitlement-after-persistence ordering holds
only on the Mini App generation path: for a type the user does not yet
own, every state traversed by `handle_generate_report` in which the
entitlement is present also has a persisted content record for the type
(`add_purchased_report` runs only after the save).  The
purchase-confirmation path violates the ordering (see the
counterexample), granting the entitlement right after lock acquisition. -/
theorem claim1_api_entitlement_after_persistence (st : SysState) (uid : Nat)
    (rid : String) (ctx : Ctx) (gen : Option String) (tok : String)
    (hnew : rid ∉ st.user.purchased_reports) :
    ∀ s ∈ (handle_generate_report st uid rid ctx gen tok).2,
      rid ∈ s.user.purchased_reports → reportPersisted s.store uid rid = true := by
  intro s hs hsm
  simp only [handle_generate_report] at hs
  split at hs
  · exact absurd hs (List.not_mem_nil s)
  · split at hs
    · exact absurd hs (List.not_mem_nil s)
    · rename_i meta hmeta
      split at hs
      · exact absurd hs (List.not_mem_nil s)
      · split at hs
        · simp only [List.mem_cons, List.not_mem_nil, or_false] at hs
          subst hs
          exact absurd hsm hnew
        · split at hs
          · split at hs
            · simp only [List.mem_cons, List.not_mem_nil, or_false] at hs
              rcases hs with rfl | rfl
              · exact absurd hsm hnew
              · exact absurd hsm hnew
            · rename_i content
              by_cases hmi : meta.multi_instance = true
              · simp only [hmi, if_true] at hs
                simp only [List.mem_cons, List.not_mem_nil, or_false] at hs
                rcases hs with rfl | rfl | rfl | rfl | rfl
                · exact absurd hsm hnew
                · exact absurd hsm hnew
                · exact absurd hsm hnew
                · exact reportPersisted_putItemDb_content _ uid rid _ _
                    (Or.inr (beginsWith_instRange_skInstance rid tok)) rfl
                · show reportPersisted (clear_report_generating _ uid rid) uid rid = true
                  unfold clear_report_generating
                  rw [reportPersisted_deleteItemDb_lock]
                  exact reportPersisted_putItemDb_content _ uid rid _ _
                    (Or.inr (beginsWith_instRange_skInstance rid tok)) rfl
              · simp only [hmi, if_false] at hs
                simp only [List.mem_cons, List.not_mem_nil, or_false] at hs
                rcases hs with rfl | rfl | rfl | rfl | rfl
                · exact absurd hsm hnew
                · exact absurd hsm hnew
                · exact absurd hsm hnew
                · exact reportPersisted_putItemDb_content _ uid rid _ _ (Or.inl rfl) rfl
                · show reportPersisted (clear_report_generating _ uid rid) uid rid = true
                  unfold clear_report_generating
                  rw [reportPersisted_deleteItemDb_lock]
                  exact reportPersisted_putItemDb_content _ uid rid _ _ (Or.inl rfl) rfl
          · simp only [List.mem_cons, List.not_mem_nil, or_false] at hs
            rcases hs with rfl | rfl | rfl
            · exact absurd hsm hnew
            · exact absurd hsm hnew
            · exact absurd hsm hnew

/-- Witness for `claim1_api_entitlement_after_persistence`: a PRO user's
Mini App generation of `full_portrait`, checked at the final trace
state. -/
theorem claim1_witness :
    reportPersisted (finalState ⟨[], ⟨[], [], true, true⟩, 0⟩
        (handle_generate_report ⟨[], ⟨[], [], true, true⟩, 0⟩ 1 "full_portrait" []
          (some "A") "tk").2).store 1 "full_portrait" = true := by
  have h := claim1_api_entitlement_after_persistence ⟨[], ⟨[], [], true, true⟩, 0⟩
    1 "full_portrait" [] (some "A") "tk" (by decide)
  exact h _ (by decide) (by decide)

end Claim1

section Claim2

/-- Claim C2 counterexample: a failing generator call in the
purchase-confirmation run (`gen = none`, modelling the `ai_service` call
raising) does not produce a handled `GenerationFailed` return — the
exception propagates (`BotResult.raised`), the lock lease is still
present in the final state (not released), and `purchased_reports` has
changed from `[]` to `["full_portrait"]` because the entitlement was
granted before the generator was invoked.  Only "stores nothing" holds. -/
theorem claim2_counterexample :
    (process_report_payment ⟨[], {}, 0⟩ 1 "full_portrait" 120 none "tk").1 =
      BotResult.raised ∧
    getItemDb (finalState ⟨[], {}, 0⟩
        (process_report_payment ⟨[], {}, 0⟩ 1 "full_portrait" 120 none "tk").2).store
      1 (skLock "full_portrait") = some { created_at := 0 } ∧
    (finalState ⟨[], {}, 0⟩
        (process_report_payment ⟨[], {}, 0⟩ 1 "full_portrait" 120 none "tk").2).user.purchased_reports
      = ["full_portrait"] := by
  decide

/-- Claim C2 (amended): when the external generator call fails, the
purchase-confirmation run terminates with the exception propagating
(no handled `GenerationFailed` result), no key other than the lock lease
`LOCK#{rid}` is written — in particular no report record and no pending
context change — but the lock remains held (written with the current
time, reclaimed only via its TTL) and the report type has already been
added to `purchased_reports` (together with the payment record) before
the failing call. -/
theorem claim2_generator_failure (st : SysState) (uid : Nat) (rid : String)
    (amount : Nat) (tok : String)
    (hfree : (is_report_generating st.store uid rid st.now).1 = false)
    (hdisp : rid ∈ botNoInputIds ∨ (rid ∈ botInputIds ∧
      pendingTruthyOf (get_pending_report_data st.store uid rid) = true)) :
    (process_report_payment st uid rid amount none tok).1 = BotResult.raised ∧
    (∀ pk sk, sk ≠ skLock rid →
      getItemDb (finalState st (process_report_payment st uid rid amount none tok).2).store
        pk sk = getItemDb st.store pk sk) ∧
    getItemDb (finalState st (process_report_payment st uid rid amount none tok).2).store
      uid (skLock rid) = some { created_at := st.now } ∧
    (finalState st (process_report_payment st uid rid amount none tok).2).user.purchased_reports
      = (if rid ∈ st.user.purchased_reports then st.user.purchased_reports
         else st.user.purchased_reports ++ [rid]) := by
  rw [bot_run_raised st uid rid amount tok hfree hdisp]
  refine ⟨rfl, ?_, ?_, ?_⟩
  · intro pk sk hne
    show getItemDb (set_report_generating (is_report_generating st.store uid rid st.now).2
      uid rid st.now) pk sk = getItemDb st.store pk sk
    unfold set_report_generating
    rw [getItemDb_putItemDb_ne _ _ (fun hk => hne hk.2)]
    exact getItemDb_check_ne st.store uid rid st.now (fun hk => hne hk.2)
  · show getItemDb (set_report_generating (is_report_generating st.store uid rid st.now).2
      uid rid st.now) uid (skLock rid) = some { created_at := st.now }
    unfold set_report_generating
    exact getItemDb_putItemDb_self _ uid (skLock rid) _
  · show (add_purchased_report (add_payment st.user ("report_" ++ rid) amount)
      rid).purchased_reports = _
    unfold add_purchased_report add_payment
    by_cases hmem : rid ∈ st.user.purchased_reports <;> simp [hmem]

/-- Witness for `claim2_generator_failure` on a fresh user and store. -/
theorem claim2_witness :
    (process_report_payment ⟨[], {}, 3⟩ 9 "financial_code" 150 none "tk").1 =
      BotResult.raised ∧
    getItemDb (finalState ⟨[], {}, 3⟩
        (process_report_payment ⟨[], {}, 3⟩ 9 "financial_code" 150 none "tk").2).store
      9 (skLock "financial_code") = some { created_at := 3 } ∧
    getItemDb (finalState ⟨[], {}, 3⟩
        (process_report_payment ⟨[], {}, 3⟩ 9 "financial_code" 150 none "tk").2).store
      9 (skReport "financial_code") = getItemDb ([] : Store) 9 (skReport "financial_code") := by
  have h := claim2_generator_failure ⟨[], {}, 3⟩ 9 "financial_code" 150 "tk"
    (by decide) (Or.inl (by decide))
  exact ⟨h.1, h.2.2.1, h.2.1 9 (skReport "financial_code") (by decide)⟩

end Claim2

section Claim3

/-- Claim C3 counterexample: invoking the purchase-confirmation run on
`year_forecast` (a `requires_input` type) with no staged pending context
does end with the generic generation-error reply and leaves the report
store and pending contexts untouched — but `purchased_reports` is not
unchanged: it grows from `[]` to `["year_forecast"]`, because the
entitlement is granted right after the lock, before the context check. -/
theorem claim3_counterexample :
    (process_report_payment ⟨[], {}, 0⟩ 1 "year_forecast" 150 (some "X") "tk").1 =
      BotResult.generationError ∧
    (finalState ⟨[], {}, 0⟩
        (process_report_payment ⟨[], {}, 0⟩ 1 "year_forecast" 150 (some "X") "tk").2).user.purchased_reports
      = ["year_forecast"] ∧
    (⟨[], {}, 0⟩ : SysState).user.purchased_reports = [] := by
  decide

/-- Claim C3 (amended): fulfillment of a `requires_input` type with no
truthy staged context falls into the generic error branch (the code has
no distinct `MissingContext` value), releases the lock, and writes
nothing outside the lock key — report store and pending contexts are
unchanged — but the payment is recorded and the type is added to
`purchased_reports` before the context check. -/
theorem claim3_missing_context (st : SysState) (uid : Nat) (rid : String)
    (amount : Nat) (gen : Option String) (tok : String)
    (hfree : (is_report_generating st.store uid rid st.now).1 = false)
    (hin : rid ∈ botInputIds)
    (hpf : pendingTruthyOf (get_pending_report_data st.store uid rid) = false) :
    (process_report_payment st uid rid amount gen tok).1 = BotResult.generationError ∧
    getItemDb (finalState st (process_report_payment st uid rid amount gen tok).2).store
      uid (skLock rid) = none ∧
    (∀ pk sk, sk ≠ skLock rid →
      getItemDb (finalState st (process_report_payment st uid rid amount gen tok).2).store
        pk sk = getItemDb st.store pk sk) ∧
    (finalState st (process_report_payment st uid rid amount gen tok).2).user.purchased_reports
      = (if rid ∈ st.user.purchased_reports then st.user.purchased_reports
         else st.user.purchased_reports ++ [rid]) := by
  rw [bot_run_misscontext st uid rid amount gen tok hfree hin hpf]
  refine ⟨rfl, ?_, ?_, ?_⟩
  · show getItemDb (clear_report_generating _ uid rid) uid (skLock rid) = none
    unfold clear_report_generating
    exact getItemDb_deleteItemDb_self _ uid (skLock rid)
  · intro pk sk hne
    show getItemDb (clear_report_generating (set_report_generating
      (is_report_generating st.store uid rid st.now).2 uid rid st.now) uid rid) pk sk =
      getItemDb st.store pk sk
    unfold clear_report_generating set_report_generating
    rw [getItemDb_deleteItemDb_ne _ (fun hk => hne hk.2)]
    rw [getItemDb_putItemDb_ne _ _ (fun hk => hne hk.2)]
    exact getItemDb_check_ne st.store uid rid st.now (fun hk => hne hk.2)
  · show (add_purchased_report (add_payment st.user ("report_" ++ rid) amount)
      rid).purchased_reports = _
    unfold add_purchased_report add_payment
    by_cases hmem : rid ∈ st.user.purchased_reports <;> simp [hmem]

/-- Witness for `claim3_missing_context` on a fresh user and store. -/
theorem claim3_witness :
    (process_report_payment ⟨[], {}, 0⟩ 2 "compatibility_pro" 150 (some "X") "tk").1 =
      BotResult.generationError ∧
    getItemDb (finalState ⟨[], {}, 0⟩
        (process_report_payment ⟨[], {}, 0⟩ 2 "compatibility_pro" 150 (some "X") "tk").2).store
      2 (skLock "compatibility_pro") = none ∧
    getItemDb (finalState ⟨[], {}, 0⟩
        (process_report_payment ⟨[], {}, 0⟩ 2 "compatibility_pro" 150 (some "X") "tk").2).store
      2 (skPending "compatibility_pro") = getItemDb ([] : Store) 2 (skPending "compatibility_pro") := by
  have h := claim3_missing_context ⟨[], {}, 0⟩ 2 "compatibility_pro" 150 (some "X") "tk"
    (by decide) (by decide) (by decide)
  exact ⟨h.1, h.2.1, h.2.2.1 2 (skPending "compatibility_pro") (by decide)⟩

end Claim3

section Claim4

/-- Claim C4 counterexample: lock acquisition in the code is not a single
atomic conditional write but a separate `is_report_generating` read
followed by a `set_report_generating` write.  Under the interleaving
check1-check2-set1-set2 from a lock-free store, both callers find the
lock free and both acquire it — with a single atomic
insert-if-absent-or-expired write, two callers could never both succeed. -/
theorem claim4_counterexample :
    (schedRun [] 1 "full_portrait" 0 [true, false, true, false]).p1 = Phase.done true ∧
    (schedRun [] 1 "full_portrait" 0 [true, false, true, false]).p2 = Phase.done true := by
  decide

/-- Claim C4 (amended): lock acquisition is a check-then-act pair of
store operations, not one atomic conditional write, and two calls that
both check before either writes can both acquire; however, once the first
caller's lock write is in the store (it holds its lock), the second
caller's check observes the live lease, so of the two calls exactly the
first succeeds and the second returns `AlreadyInProgress`. -/
theorem claim4_holder_blocks_second (s : Store) (uid : Nat) (rid : String) (now : Nat)
    (h : getItemDb s uid (skLock rid) = none) :
    (schedRun s uid rid now [true, true, false, false]).p1 = Phase.done true ∧
    (schedRun s uid rid now [true, true, false, false]).p2 = Phase.done false := by
  have h1 : is_report_generating s uid rid now = (false, s) := by
    unfold is_report_generating
    rw [h]
  have h2 : getItemDb (set_report_generating s uid rid now) uid (skLock rid) =
      some { created_at := now } := by
    unfold set_report_generating
    exact getItemDb_putItemDb_self s uid (skLock rid) { created_at := now }
  have h3 : is_report_generating (set_report_generating s uid rid now) uid rid now =
      (true, set_report_generating s uid rid now) := by
    unfold is_report_generating
    rw [h2]
    simp [Nat.sub_self]
  have e1 : schedStep uid rid now { store := s, p1 := Phase.start, p2 := Phase.start } true =
      { store := s, p1 := Phase.checked true, p2 := Phase.start } := by
    simp [schedStep, phaseStep, h1]
  have e2 : schedStep uid rid now
      { store := s, p1 := Phase.checked true, p2 := Phase.start } true =
      { store := set_report_generating s uid rid now, p1 := Phase.done true,
        p2 := Phase.start } := by
    simp [schedStep, phaseStep]
  have e3 : schedStep uid rid now
      { store := set_report_generating s uid rid now, p1 := Phase.done true,
        p2 := Phase.start } false =
      { store := set_report_generating s uid rid now, p1 := Phase.done true,
        p2 := Phase.checked false } := by
    simp [schedStep, phaseStep, h3]
  have e4 : schedStep uid rid now
      { store := set_report_generating s uid rid now, p1 := Phase.done true,
        p2 := Phase.checked false } false =
      { store := set_report_generating s uid rid now, p1 := Phase.done true,
        p2 := Phase.done false } := by
    simp [schedStep, phaseStep]
  unfold schedRun
  rw [List.foldl_cons, e1, List.foldl_cons, e2, List.foldl_cons, e3,
    List.foldl_cons, e4, List.foldl_nil]
  exact ⟨rfl, rfl⟩

/-- Witness for `claim4_holder_blocks_second` at the empty store. -/
theorem claim4_witness :
    (schedRun [] 7 "year_forecast" 50 [true, true, false, false]).p1 = Phase.done true ∧
    (schedRun [] 7 "year_forecast" 50 [true, true, false, false]).p2 = Phase.done false :=
  claim4_holder_blocks_second [] 7 "year_forecast" 50 (by decide)

end Claim4

section Claim5

/-- Claim C5 counterexample: at age exactly equal to the 120-second TTL
the code still reports the lease as held and does not reclaim it
(`is_report_generating` treats a lease as stale only when its age is
strictly greater than 120 seconds), whereas the claim says a lease whose
age is at least the TTL is treated as abandoned and does not block. -/
theorem claim5_counterexample :
    is_report_generating
        [{ pk := 1, sk := skLock "full_portrait", item := { created_at := 0 } }]
        1 "full_portrait" 120 =
      (true, [{ pk := 1, sk := skLock "full_portrait", item := { created_at := 0 } }]) := by
  decide

/-- Claim C5 (amended): a present lease counts as held exactly while its
age is at most the 120-second TTL; a lease strictly older than the TTL is
treated as abandoned — it is deleted and does not block a new call. -/
theorem claim5_lease_held_iff (s : Store) (uid : Nat) (rid : String) (now : Nat) (it : Item)
    (h : getItemDb s uid (skLock rid) = some it) :
    ((is_report_generating s uid rid now).1 = true ↔ now - it.created_at ≤ 120) ∧
    (120 < now - it.created_at →
      is_report_generating s uid rid now = (false, deleteItemDb s uid (skLock rid))) := by
  unfold is_report_generating
  rw [h]
  by_cases hst : 120 < now - it.created_at
  · refine ⟨?_, fun _ => by simp [hst]⟩
    simp only [hst, if_true]
    constructor
    · intro hcon
      cases hcon
    · intro hle
      omega
  · refine ⟨?_, fun hcon => absurd hcon hst⟩
    simp only [hst, if_false]
    constructor
    · intro _
      omega
    · intro _
      trivial

/-- Witness for `claim5_lease_held_iff`: a lease of age 121 seconds is
reported free and reclaimed. -/
theorem claim5_witness :
    (is_report_generating [{ pk := 1, sk := skLock "r", item := { created_at := 0 } }]
        1 "r" 121).1 = false := by
  have h := claim5_lease_held_iff
    [{ pk := 1, sk := skLock "r", item := { created_at := 0 } }] 1 "r" 121
    { created_at := 0 } (by decide)
  rw [h.2 (by decide)]

end Claim5

section Claim6

/-- Claim C6 counterexample: `save_report_instance` performs no collision
check and no retry — writing with a token that equals an existing
instance_id for the same `(user, type)` replaces the existing record: the
previously stored content `"old"` is gone and the getter now returns
`"new"`, while the returned id is still the colliding token. -/
theorem claim6_counterexample :
    (get_report_instance
        (save_report_instance (save_report_instance [] 1 "year_forecast" "old" [] "abc" 3).2
          1 "year_forecast" "new" [] "abc" 7).2
        1 "year_forecast" "abc").map InstRecord.content = some (some "new") ∧
    (save_report_instance (save_report_instance [] 1 "year_forecast" "old" [] "abc" 3).2
        1 "year_forecast" "new" [] "abc" 7).1 = "abc" := by
  decide

/-- Claim C6 (amended): `save_report_instance` writes unconditionally
under the generated token and returns it; when the token collides with an
existing instance_id for that `(user, type)` the existing record is
simply overwritten (last write wins), never retried. -/
theorem claim6_save_instance_overwrites (s : Store) (uid : Nat) (t c : String) (ctx : Ctx)
    (tok : String) (now : Nat) :
    (save_report_instance s uid t c ctx tok now).1 = tok ∧
    get_report_instance (save_report_instance s uid t c ctx tok now).2 uid t tok =
      some { instance_id := some tok, content := some c, context := ctx, created_at := now } := by
  refine ⟨rfl, ?_⟩
  unfold get_report_instance save_report_instance
  rw [getItemDb_putItemDb_self]
  rfl

end Claim6

section Claim7

/-- Claim C7: a context map saved to the pending-context store is
returned field-for-field by a Get on the same key before consumption;
Save is an idempotent overwrite; and Get on a key never saved (no
`PENDING#{report_id}` item) or just deleted is absent. -/
theorem claim7_pending_context_roundtrip (s : Store) (uid : Nat) (rid : String)
    (d : Ctx) (now : Nat) :
    get_pending_report_data (save_pending_report_data s uid rid d now) uid rid = some d ∧
    save_pending_report_data (save_pending_report_data s uid rid d now) uid rid d now =
      save_pending_report_data s uid rid d now ∧
    (getItemDb s uid (skPending rid) = none → get_pending_report_data s uid rid = none) ∧
    get_pending_report_data (delete_pending_report_data s uid rid) uid rid = none := by
  refine ⟨?_, ?_, ?_, ?_⟩
  · unfold get_pending_report_data save_pending_report_data
    rw [getItemDb_putItemDb_self]
  · exact putItemDb_putItemDb_self s uid (skPending rid) _ _
  · intro h
    unfold get_pending_report_data
    rw [h]
  · unfold get_pending_report_data delete_pending_report_data
    rw [getItemDb_deleteItemDb_self]

/-- Witness for `claim7_pending_context_roundtrip` on a concrete map. -/
theorem claim7_witness :
    get_pending_report_data
        (save_pending_report_data [] 1 "year_forecast" [("year", "2026")] 5)
        1 "year_forecast" = some [("year", "2026")] ∧
    get_pending_report_data [] 1 "year_forecast" = none := by
  have h := claim7_pending_context_roundtrip [] 1 "year_forecast" [("year", "2026")] 5
  exact ⟨h.1, h.2.2.1 (by decide)⟩

end Claim7

section Claim9

/-- Claim C9: `get_report_instances` returns one listing entry per stored
row of the `REPORT#{t}#` range — a permutation of the projected query,
so nothing is dropped or duplicated — sorted by `created_at` newest
first, each entry carrying only instance_id, context and created_at (the
`InstEntry` projection excludes content); and for the instance_id
returned by a successful `save_report_instance`, `get_report_instance`
returns the saved content, and the listing includes the new id. -/
theorem claim9_list_instances (s : Store) (uid : Nat) (t c : String) (ctx : Ctx)
    (tok : String) (now : Nat) :
    (get_report_instances s uid t).Perm
      ((queryPrefix s uid (instRange t)).map rowToEntry) ∧
    DescSorted (get_report_instances s uid t) ∧
    ((get_report_instance (save_report_instance s uid t c ctx tok now).2 uid t
        (save_report_instance s uid t c ctx tok now).1).map InstRecord.content
      = some (some c)) ∧
    (∃ e ∈ get_report_instances (save_report_instance s uid t c ctx tok now).2 uid t,
      e.instance_id = some tok) := by
  refine ⟨sortDesc_perm _, sortDesc_sorted _, ?_, ?_⟩
  · unfold get_report_instance save_report_instance
    rw [getItemDb_putItemDb_self]
    rfl
  · have hq : (⟨uid, skInstance t tok,
        { report_type := some t, instance_id := some tok, content := some c,
          context := some ctx, created_at := now }⟩ : Row) ∈
        queryPrefix (save_report_instance s uid t c ctx tok now).2 uid (instRange t) := by
      apply mem_queryPrefix.mpr
      refine ⟨?_, rfl, beginsWith_instRange_skInstance t tok⟩
      unfold save_report_instance putItemDb
      exact List.mem_cons_self _ _
    have hmem := List.mem_map_of_mem rowToEntry hq
    refine ⟨rowToEntry ⟨uid, skInstance t tok,
      { report_type := some t, instance_id := some tok, content := some c,
        context := some ctx, created_at := now }⟩, ?_, rfl⟩
    exact ((sortDesc_perm _).mem_iff).mpr hmem

end Claim9

section Claim8

/-- Claim C8: deleting one instance removes exactly the row at
`REPORT#{t}#{i}` — every other key reads unchanged (sibling instances,
other types, single-copy reports, pending contexts, locks) — and the
listing of `(uid, t)` afterwards is the previous listing minus exactly
the entries bearing the deleted id (stated up to permutation, for
well-formed instance rows); moreover the `REPORT#{t}#` prefix range
matches an instance key of type `u` exactly when `u = t`, and never a
single-copy, pending or lock key (for `#`-free type names, which all
catalog types are). -/
theorem claim8_delete_instance_frame (s : Store) (uid : Nat) (t i : String)
    (hwf : instancesWellFormed s uid t) (ht : '#' ∉ t.data) :
    (∀ pk sk, ¬(pk = uid ∧ sk = skInstance t i) →
      getItemDb (delete_report_instance s uid t i) pk sk = getItemDb s pk sk) ∧
    getItemDb (delete_report_instance s uid t i) uid (skInstance t i) = none ∧
    (get_report_instances (delete_report_instance s uid t i) uid t).Perm
      ((get_report_instances s uid t).filter (fun e => !(e.instance_id == some i))) ∧
    (∀ u j, '#' ∉ u.data →
      (beginsWith (instRange t) (skInstance u j) = true ↔ t = u)) ∧
    (∀ u, '#' ∉ u.data → beginsWith (instRange t) (skReport u) = false) ∧
    (∀ u, beginsWith (instRange t) (skPending u) = false) ∧
    (∀ u, beginsWith (instRange t) (skLock u) = false) := by
  refine ⟨?_, ?_, ?_, ?_, ?_, ?_, ?_⟩
  · intro pk sk hne
    exact getItemDb_deleteItemDb_ne s hne
  · exact getItemDb_deleteItemDb_self s uid (skInstance t i)
  · unfold get_report_instances delete_report_instance
    rw [queryPrefix_deleteItemDb]
    rw [map_filter_eq_filter_map rowToEntry _ (fun e => !(e.instance_id == some i)) _ ?heq]
    case heq =>
      intro r hr
      rcases mem_queryPrefix.mp hr with ⟨hrs, hpk, hbw⟩
      obtain ⟨hsome, hid⟩ := hwf r hrs hpk hbw
      cases hid2 : r.item.instance_id with
      | none => rw [hid2] at hsome; cases hsome
      | some j =>
        rw [hid2] at hid
        simp only [Option.getD_some] at hid
        by_cases hji : j = i
        · subst hji
          simp [rowToEntry, hid, hpk, hid2]
        · have hsk : r.sk ≠ skInstance t i := by
            rw [hid]
            intro hcon
            exact hji (skInstance_inj t j i hcon)
          have h1 : (r.pk == uid && r.sk == skInstance t i) = false :=
            rowKey_beq_false r uid (skInstance t i) (fun hk => hsk hk.2)
          have h2 : ((some j : Option String) == some i) = false := by
            simp [hji]
          simp [rowToEntry, h1, hid2, h2]
    exact ((sortDesc_perm _).trans
      (((sortDesc_perm _).symm).filter (fun e => !(e.instance_id == some i))))
  · intro u j hu
    exact beginsWith_instRange_skInstance_iff t u j ht hu
  · intro u hu
    exact beginsWith_instRange_skReport t u hu
  · intro u
    exact beginsWith_instRange_skPending t u
  · intro u
    exact beginsWith_instRange_skLock t u

/-- Witness for `claim8_delete_instance_frame` on a concrete store
holding two `year_forecast` instances, a `date_calendar` instance, a
single-copy report, a pending context and a lock. -/
theorem claim8_witness :
    getItemDb (delete_report_instance
        [⟨1, skInstance "year_forecast" "i1", { instance_id := some "i1", content := some "a", created_at := 3 }⟩,
         ⟨1, skInstance "year_forecast" "i2", { instance_id := some "i2", content := some "b", created_at := 9 }⟩,
         ⟨1, skInstance "date_calendar" "i3", { instance_id := some "i3", content := some "d", created_at := 5 }⟩,
         ⟨1, skReport "full_portrait", { content := some "f", created_at := 2 }⟩,
         ⟨1, skPending "name_selection", { data := some [("x", "y")], created_at := 1 }⟩,
         ⟨1, skLock "year_forecast", { created_at := 4 }⟩]
        1 "year_forecast" "i2")
      1 (skInstance "year_forecast" "i1") =
      some { instance_id := some "i1", content := some "a", created_at := 3 } ∧
    getItemDb (delete_report_instance
        [⟨1, skInstance "year_forecast" "i1", { instance_id := some "i1", content := some "a", created_at := 3 }⟩,
         ⟨1, skInstance "year_forecast" "i2", { instance_id := some "i2", content := some "b", created_at := 9 }⟩,
         ⟨1, skInstance "date_calendar" "i3", { instance_id := some "i3", content := some "d", created_at := 5 }⟩,
         ⟨1, skReport "full_portrait", { content := some "f", created_at := 2 }⟩,
         ⟨1, skPending "name_selection", { data := some [("x", "y")], created_at := 1 }⟩,
         ⟨1, skLock "year_forecast", { created_at := 4 }⟩]
        1 "year_forecast" "i2")
      1 (skInstance "year_forecast" "i2") = none ∧
    beginsWith (instRange "year_forecast") (skPending "year_forecast") = false := by
  have h := claim8_delete_instance_frame
    [⟨1, skInstance "year_forecast" "i1", { instance_id := some "i1", content := some "a", created_at := 3 }⟩,
     ⟨1, skInstance "year_forecast" "i2", { instance_id := some "i2", content := some "b", created_at := 9 }⟩,
     ⟨1, skInstance "date_calendar" "i3", { instance_id := some "i3", content := some "d", created_at := 5 }⟩,
     ⟨1, skReport "full_portrait", { content := some "f", created_at := 2 }⟩,
     ⟨1, skPending "name_selection", { data := some [("x", "y")], created_at := 1 }⟩,
     ⟨1, skLock "year_forecast", { created_at := 4 }⟩]
    1 "year_forecast" "i2" (by unfold instancesWellFormed; decide) (by decide)
  refine ⟨?_, h.2.1, h.2.2.2.2.2.1 "year_forecast"⟩
  rw [h.1 1 (skInstance "year_forecast" "i1") (by decide)]
  decide

end Claim8

section Claim10

/-- Claim C10: for a multi-instance type, `get_report` ignores the
single-copy `REPORT#{t}` key (overwriting that key does not change the
result), returns absent when no instances are stored, and after saving a
strictly newest instance returns exactly its content; only for
non-multi-instance types does it read the single-copy record — there the
instance range is ignored and the saved single-copy content is
returned. -/
theorem claim10_get_report_dispatch (s : Store) (uid : Nat) (t : String) (it : Item)
    (c : String) (ctx : Ctx) (i tok : String) (now : Nat) :
    (t ∈ MULTI_INSTANCE_REPORTS →
      get_report (putItemDb s uid (skReport t) it) uid t = get_report s uid t) ∧
    (t ∈ MULTI_INSTANCE_REPORTS → get_report_instances s uid t = [] →
      get_report s uid t = none) ∧
    (t ∉ MULTI_INSTANCE_REPORTS →
      get_report (putItemDb s uid (skInstance t i) it) uid t = get_report s uid t) ∧
    (t ∉ MULTI_INSTANCE_REPORTS →
      get_report (save_report s uid t c now) uid t = some c) ∧
    (t ∈ MULTI_INSTANCE_REPORTS →
      (∀ r ∈ s, r.pk = uid → beginsWith (instRange t) r.sk = true →
        r.item.created_at < now) →
      get_report (save_report_instance s uid t c ctx tok now).2 uid t = some c) := by
  refine ⟨?_, ?_, ?_, ?_, ?_⟩
  · intro hm
    have ht := multi_no_hash hm
    have hinst : get_report_instances (putItemDb s uid (skReport t) it) uid t =
        get_report_instances s uid t := by
      unfold get_report_instances
      rw [queryPrefix_putItemDb_notin s uid uid (skReport t) (instRange t) it
        (fun hk => by rw [beginsWith_instRange_skReport t t ht] at hk; cases hk.2)]
      rw [filter_key_eq_self]
      intro r hr hk
      rcases mem_queryPrefix.mp hr with ⟨_, _, hbw⟩
      rw [hk.2, beginsWith_instRange_skReport t t ht] at hbw
      cases hbw
    unfold get_report
    simp only [hm, if_true]
    rw [hinst]
    cases hcase : get_report_instances s uid t with
    | nil => rfl
    | cons e rest =>
      have hpt : get_report_instance (putItemDb s uid (skReport t) it) uid t
          (e.instance_id.getD "None") = get_report_instance s uid t
          (e.instance_id.getD "None") := by
        unfold get_report_instance
        rw [getItemDb_putItemDb_ne _ _
          (fun hk => skReport_ne_skInstance_self t (e.instance_id.getD "None") hk.2.symm)]
      dsimp only
      rw [hpt]
  · intro hm hnil
    unfold get_report
    simp only [hm, if_true]
    rw [hnil]
  · intro hnm
    unfold get_report
    simp only [hnm, if_false]
    rw [getItemDb_putItemDb_ne _ _
      (fun hk => skReport_ne_skInstance_self t i hk.2)]
  · intro hnm
    unfold get_report save_report
    simp only [hnm, if_false]
    rw [getItemDb_putItemDb_self]
  · intro hm hold
    have hq : queryPrefix (save_report_instance s uid t c ctx tok now).2 uid (instRange t) =
        ⟨uid, skInstance t tok,
          { report_type := some t, instance_id := some tok, content := some c,
            context := some ctx, created_at := now }⟩ ::
          (queryPrefix s uid (instRange t)).filter
            (fun r => !(r.pk == uid && r.sk == skInstance t tok)) := by
      unfold save_report_instance
      exact queryPrefix_putItemDb_pos s uid (skInstance t tok) (instRange t) _
        (beginsWith_instRange_skInstance t tok)
    have hlt : ∀ y ∈ sortDesc (((queryPrefix s uid (instRange t)).filter
        (fun r => !(r.pk == uid && r.sk == skInstance t tok))).map rowToEntry),
        y.created_at < now := by
      intro y hy
      have hy2 := (sortDesc_perm _).mem_iff.mp hy
      rcases List.mem_map.mp hy2 with ⟨r, hr, rfl⟩
      have hr2 := List.mem_of_mem_filter hr
      rcases mem_queryPrefix.mp hr2 with ⟨hrs, hpk, hbw⟩
      exact hold r hrs hpk hbw
    have hlist : get_report_instances (save_report_instance s uid t c ctx tok now).2 uid t =
        rowToEntry ⟨uid, skInstance t tok,
          { report_type := some t, instance_id := some tok, content := some c,
            context := some ctx, created_at := now }⟩ ::
          sortDesc (((queryPrefix s uid (instRange t)).filter
            (fun r => !(r.pk == uid && r.sk == skInstance t tok))).map rowToEntry) := by
      unfold get_report_instances
      rw [hq, List.map_cons, sortDesc_cons]
      apply insertDesc_of_forall_lt
      intro y hy
      exact hlt y hy
    unfold get_report
    simp only [hm, if_true]
    rw [hlist]
    have hget : get_report_instance (save_report_instance s uid t c ctx tok now).2 uid t tok =
        some { instance_id := some tok, content := some c, context := ctx, created_at := now } := by
      unfold get_report_instance save_report_instance
      rw [getItemDb_putItemDb_self]
      rfl
    show (match get_report_instance (save_report_instance s uid t c ctx tok now).2 uid t
        ((some tok).getD "None") with
      | some r => r.content
      | none => none) = some c
    simp only [Option.getD_some]
    rw [hget]

/-- Witness for `claim10_get_report_dispatch`: each branch instantiated
on concrete stores (`year_forecast` is multi-instance, `full_portrait`
is not). -/
theorem claim10_witness :
    get_report (putItemDb [] 1 (skReport "year_forecast") { content := some "Z" })
      1 "year_forecast" = get_report [] 1 "year_forecast" ∧
    get_report [] 1 "year_forecast" = none ∧
    get_report (putItemDb [] 1 (skInstance "full_portrait" "j") { content := some "Z" })
      1 "full_portrait" = get_report [] 1 "full_portrait" ∧
    get_report (save_report [] 1 "full_portrait" "S" 4) 1 "full_portrait" = some "S" ∧
    get_report (save_report_instance
        [⟨1, skInstance "year_forecast" "i1",
          { instance_id := some "i1", content := some "a", created_at := 3 }⟩]
        1 "year_forecast" "NEW" [("year", "2026")] "i9" 8).2 1 "year_forecast" = some "NEW" := by
  have h1 := claim10_get_report_dispatch [] 1 "year_forecast" { content := some "Z" }
    "c" [] "i" "tk" 0
  have h2 := claim10_get_report_dispatch [] 1 "full_portrait" { content := some "Z" }
    "S" [] "j" "tk" 4
  have h3 := claim10_get_report_dispatch
    [⟨1, skInstance "year_forecast" "i1",
      { instance_id := some "i1", content := some "a", created_at := 3 }⟩]
    1 "year_forecast" { content := some "Z" } "NEW" [("year", "2026")] "i" "i9" 8
  refine ⟨h1.1 (by decide), h1.2.1 (by decide) (by decide), h2.2.2.1 (by decide),
    h2.2.2.2.1 (by decide), h3.2.2.2.2 (by decide) (by decide)⟩

end Claim10

end Numerolog
